import Mathlib

/-!
Verification of the lgtmgen CLI (cli.go) against its specification.

The program batch-applies a mask image onto every file of an input
directory.  External collaborators (the flag package, the embedded asset
store, the imaging library, os.Stat, ioutil.ReadDir) are modelled as
abstract fields of a `World` record; everything in cli.go itself is
translated function by function.  The per-file goroutines are modelled
twice: as a pure per-task function `runTask` (each task is independent,
sharing only the read-only mask), and as an interleaving step relation
`OrchStep` for the WaitGroup counting barrier.
-/

namespace Lgtmgen

/-- Which stream a diagnostic line is written to: `cli.errStream`
(modelling stderr) or standard output (`fmt.Printf`). -/
inductive StreamKind where
  | stdout : StreamKind
  | stderr : StreamKind
deriving DecidableEq, Repr

/-- One emitted diagnostic line: the stream and the full text
(including the trailing newline of the Fprintf format). -/
abbrev Line := StreamKind × String

/-- Result of parsing the command line flags (flag package is external;
this records the final values of the bound variables output, directory,
force, version after flags.Parse succeeds). -/
structure Flags where
  output : String
  directory : String
  force : Bool
  version : Bool
deriving DecidableEq, Repr

/-- One entry returned by ioutil.ReadDir: its base name and whether it
is a directory (fileInfo.IsDir()). -/
structure DirEntry where
  name : String
  isDir : Bool
deriving DecidableEq, Repr

/-- The external environment of one run.  `Img` is the abstract type of
decoded in-memory images (the imaging library is a black box).
Fields model, in order: the outcome of flags.Parse on args, the
embedded asset store images.Asset, the stdlib image.Decode (none when
the bytes cannot be decoded, mirroring a nil image result),
ioutil.ReadDir, imaging.Open, imaging.OverlayCenter at opacity 1.0
(the mask argument is an Option because a nil image can flow in),
imaging.Save (some err on failure, none on success), and os.Stat
(ok on success, error otherwise). -/
structure World (Img : Type) where
  parse : Except String Flags
  asset : String → Except String (List Nat)
  decode : List Nat → Option Img
  readDir : String → Except String (List DirEntry)
  imagingOpen : String → Except String Img
  overlayCenter : Img → Option Img → Img
  save : Img → String → Option String
  stat : String → Except String Unit

/-- MaskImagePath constant from cli.go. -/
def MaskImage : String := "images/lgtm_mask.png"

/-- ExitCodeOK from the const block: first ConstSpec, value 0. -/
def ExitCodeOK : Nat := 0

/-- ExitCodeError from the const block.  In a Go const block iota is
the index of the ConstSpec, so on the second line iota = 1 and
ExitCodeError = 1 + iota = 2. -/
def ExitCodeError : Nat := 1 + 1

/-- Model of strings.HasSuffix: the suffix character list is a suffix
of the character list of s. -/
def hasSuffix (s suffix : String) : Bool :=
  decide (suffix.data <:+ s.data)

/-- Translation of addDirectorySuffix: append a slash unless the path
already ends with one (the bytes.Buffer concatenation is string
append). -/
def addDirectorySuffix (directoryPath : String) : String :=
  if hasSuffix directoryPath "/" then directoryPath
  else directoryPath ++ "/"

/-- Translation of loadMaskImage.  images.Asset failure is propagated;
the error result of image.Decode is discarded (img, _, _ :=), so a
decode failure yields ok with a nil image (none), not an error. -/
def loadMaskImage {Img : Type} (w : World Img) (maskImage : String) :
    Except String (Option Img) :=
  match w.asset maskImage with
  | Except.error err => Except.error err
  | Except.ok imageByte => Except.ok (w.decode imageByte)

/-- Translation of readImagePaths.  The ioutil.ReadDir failure makes
the Go function panic; the panic is modelled as the error branch of
the Except.  Directories are skipped, every other entry yields
target ++ name, in directory order; no recursion and no filtering by
extension. -/
def readImagePaths {Img : Type} (w : World Img) (target : String) :
    Except String (List String) :=
  match w.readDir target with
  | Except.error err => Except.error err
  | Except.ok files =>
      Except.ok ((files.filter (fun fileInfo => !fileInfo.isDir)).map
        (fun fileInfo => target ++ fileInfo.name))

/-- Translation of overlayImage: open the source file, then overlay the
mask centered at opacity 1.0 on it. -/
def overlayImage {Img : Type} (w : World Img) (file : String)
    (maskImage : Option Img) : Except String Img :=
  match w.imagingOpen file with
  | Except.error err => Except.error err
  | Except.ok srcImage => Except.ok (w.overlayCenter srcImage maskImage)

/-- Translation of existFile: true exactly when os.Stat returns no
error. -/
def existFile {Img : Type} (w : World Img) (filename : String) : Bool :=
  match w.stat filename with
  | Except.ok _ => true
  | Except.error _ => false

/-- The string Go fmt produces for the %s verb applied to a nil error
interface value. -/
def fmtNilErr : String := "%!s(<nil>)"

/-- Model of Go filepath.Base on unix: empty path gives ".", trailing
slashes are stripped, then everything up to and including the last
slash is dropped; a path of only slashes gives "/". -/
def filepathBase (path : String) : String :=
  if path = "" then "."
  else
    let stripped := (path.toList.reverse.dropWhile (fun c => c = '/')).reverse
    let name := (stripped.reverse.takeWhile (fun c => c ≠ '/')).reverse
    if stripped = [] then "/"
    else String.mk name

/-- Destination path computed inside the goroutine: the (suffixed)
output directory concatenated with filepath.Base of the source path
(via a bytes.Buffer). -/
def destPath (output filePath : String) : String :=
  output ++ filepathBase filePath

/-- Observable behaviour of one per-file goroutine: the diagnostic
lines it emits and the file write it performs, if any. -/
structure TaskResult (Img : Type) where
  lines : List Line
  written : Option (String × Img)
deriving DecidableEq, Repr

/-- Translation of the body of the goroutine launched for filePath in
Run.  The mask_err branch logs the overlay error; the existFile/force
guard logs the already-exists skip; the save_err branch reproduces the
source verbatim: it formats mask_err — which is necessarily nil at
that point — rather than save_err, producing the nil-error rendering;
the success branch goes through fmt.Printf, hence stdout. -/
def runTask {Img : Type} (w : World Img) (output : String) (force : Bool)
    (maskImage : Option Img) (filePath : String) : TaskResult Img :=
  match overlayImage w filePath maskImage with
  | Except.error mask_err =>
      ⟨[(StreamKind.stderr, "[" ++ mask_err ++ "] " ++ filePath ++ "\n")], none⟩
  | Except.ok maskedImage =>
      let outputFilePath := destPath output filePath
      if existFile w outputFilePath && !force then
        ⟨[(StreamKind.stderr, "[already exists] " ++ outputFilePath ++ "\n")], none⟩
      else
        match w.save maskedImage outputFilePath with
        | some _save_err =>
            ⟨[(StreamKind.stderr, "[" ++ fmtNilErr ++ "] " ++ filePath ++ "\n")], none⟩
        | none =>
            ⟨[(StreamKind.stdout, "[success] " ++ outputFilePath ++ "\n")],
              some (outputFilePath, maskedImage)⟩

/-- Observable outcome of CLI.Run: either the readImagePaths panic
propagated out of Run, or a return with an exit code together with the
results of the dispatched tasks (one per file path, in dispatch
order; the completion interleaving is modelled separately by
OrchStep).  Diagnostic messages printed on the fatal paths and by
-version are not recorded, only the outcome. -/
inductive RunOutcome (Img : Type) where
  | panicked : String → RunOutcome Img
  | exited : Nat → List (TaskResult Img) → RunOutcome Img
deriving DecidableEq, Repr

/-- Translation of CLI.Run: parse flags (error exit on failure), handle
-version, require -directory and -output, suffix both directories,
load the mask (error exit on failure), enumerate the input directory
(panic on failure), then run one task per file path and return
ExitCodeOK. -/
def Run {Img : Type} (w : World Img) : RunOutcome Img :=
  match w.parse with
  | Except.error _ => RunOutcome.exited ExitCodeError []
  | Except.ok flags =>
      if flags.version then RunOutcome.exited ExitCodeOK []
      else if flags.directory = "" then RunOutcome.exited ExitCodeError []
      else if flags.output = "" then RunOutcome.exited ExitCodeError []
      else
        let directory := addDirectorySuffix flags.directory
        let output := addDirectorySuffix flags.output
        match loadMaskImage w MaskImage with
        | Except.error _ => RunOutcome.exited ExitCodeError []
        | Except.ok maskImage =>
            match readImagePaths w directory with
            | Except.error err => RunOutcome.panicked err
            | Except.ok filePaths =>
                RunOutcome.exited ExitCodeOK
                  (filePaths.map (fun filePath =>
                    runTask w output flags.force maskImage filePath))

/-- Exit code of a run outcome, none when Run panicked and never
returned. -/
def exitCode {Img : Type} : RunOutcome Img → Option Nat
  | RunOutcome.panicked _ => none
  | RunOutcome.exited code _ => some code

/-- Number of goroutines dispatched by a run. -/
def tasksDispatched {Img : Type} : RunOutcome Img → Nat
  | RunOutcome.panicked _ => 0
  | RunOutcome.exited _ tasks => tasks.length

/-- The output side of the filesystem: which image bytes are stored at
each path, none when no file exists there. -/
abbrev FS (Img : Type) : Type := String → Option Img

/-- Semantics of one imaging.Save success: create or overwrite the
file at the path. -/
def writeFile {Img : Type} (fs : FS Img) (p : String) (v : Img) : FS Img :=
  fun q => if q = p then some v else fs q

/-- Apply a list of writes in order (later writes win). -/
def applyWrites {Img : Type} (l : List (String × Img)) (fs : FS Img) : FS Img :=
  l.foldl (fun fs e => writeFile fs e.1 e.2) fs

/-- The writes a run performs: the written field of every dispatched
task, in dispatch order. -/
def runWrites {Img : Type} : RunOutcome Img → List (String × Img)
  | RunOutcome.panicked _ => []
  | RunOutcome.exited _ tasks => tasks.filterMap (fun t => t.written)

/-- Replace the os.Stat oracle of a world, keeping everything else:
this is how the second run of a batch sees the same inputs but a
changed output directory. -/
def setStat {Img : Type} (w : World Img) (stat : String → Except String Unit) :
    World Img :=
  ⟨w.parse, w.asset, w.decode, w.readDir, w.imagingOpen, w.overlayCenter, w.save, stat⟩

/-- State of the WaitGroup orchestration in Run: loop iterations not
yet executed (one per file path), goroutines currently running, tasks
that have already called wg.Done, the WaitGroup counter, and whether
Run has passed wg.Wait and returned. -/
structure OrchState where
  pending : List String
  running : List String
  completed : List String
  counter : Nat
  returned : Bool
deriving DecidableEq, Repr

/-- Interleaving semantics of the dispatch loop and the barrier in
Run: dispatch is one loop iteration (wg.Add(1) then the go statement),
complete is one goroutine finishing (its deferred wg.Done decrements
the counter), finish is wg.Wait unblocking, which requires the loop to
be over and the counter to have reached zero. -/
inductive OrchStep : OrchState → OrchState → Prop where
  | dispatch (t : String) (p r c : List String) (n : Nat) :
      OrchStep ⟨t :: p, r, c, n, false⟩ ⟨p, t :: r, c, n + 1, false⟩
  | complete (t : String) (p r₁ r₂ c : List String) (n : Nat) :
      OrchStep ⟨p, r₁ ++ t :: r₂, c, n + 1, false⟩ ⟨p, r₁ ++ r₂, t :: c, n, false⟩
  | finish (r c : List String) :
      OrchStep ⟨[], r, c, 0, false⟩ ⟨[], r, c, 0, true⟩

/-- Invariant of the orchestration: the counter counts exactly the
running goroutines, the three lists partition the dispatched work, and
a returned state has an empty loop and a zero counter. -/
def orchInv (tasks : List String) (s : OrchState) : Prop :=
  s.counter = s.running.length
  ∧ (s.pending ++ s.running ++ s.completed).Perm tasks
  ∧ (s.returned = true → s.pending = [] ∧ s.counter = 0)

/-- Property the specification wording of claim C7 asserts of the
normalized output directory: it ends in exactly one trailing slash. -/
def endsInSingleSlash (s : String) : Prop :=
  hasSuffix s "/" = true ∧ hasSuffix s "//" = false

/-- Concrete example world over Nat-coded images, assembled from
constant oracles; overlayCenter adds ten to the source image code so
that composited images are distinguishable from sources. -/
def mkWorld (parse : Except String Flags) (asset : Except String (List Nat))
    (decode : Option Nat) (readDir : Except String (List DirEntry))
    (imagingOpen : Except String Nat) (save : Option String)
    (stat : Except String Unit) : World Nat :=
  ⟨parse, fun _ => asset, fun _ => decode, fun _ => readDir, fun _ => imagingOpen,
   fun i _ => i + 10, fun _ _ => save, fun _ => stat⟩

/-- Flag values for the example worlds. -/
def flagsStd : Flags := ⟨"out", "in", false, false⟩

/-- Flag values with the force flag set. -/
def flagsForce : Flags := ⟨"out", "in", true, false⟩

/-- Flag values with the input directory flag missing. -/
def flagsNoDir : Flags := ⟨"out", "", false, false⟩

/-- Flag values with the output directory flag missing. -/
def flagsNoOut : Flags := ⟨"", "in", false, false⟩

/-- World whose command line fails to parse. -/
def wParseFail : World Nat :=
  mkWorld (Except.error "bad flag") (Except.ok [0]) (some 7) (Except.ok [])
    (Except.ok 5) none (Except.error "stat")

/-- World with no -directory flag. -/
def wNoDir : World Nat :=
  mkWorld (Except.ok flagsNoDir) (Except.ok [0]) (some 7) (Except.ok [])
    (Except.ok 5) none (Except.error "stat")

/-- World with no -output flag. -/
def wNoOut : World Nat :=
  mkWorld (Except.ok flagsNoOut) (Except.ok [0]) (some 7) (Except.ok [])
    (Except.ok 5) none (Except.error "stat")

/-- World whose embedded mask asset is missing. -/
def wMaskFail : World Nat :=
  mkWorld (Except.ok flagsStd) (Except.error "asset not found") (some 7)
    (Except.ok []) (Except.ok 5) none (Except.error "stat")

/-- World whose input directory cannot be read. -/
def wReadDirFail : World Nat :=
  mkWorld (Except.ok flagsStd) (Except.ok [0]) (some 7)
    (Except.error "read error") (Except.ok 5) none (Except.error "stat")

/-- World whose mask asset bytes exist but do not decode. -/
def wUndecodable : World Nat :=
  mkWorld (Except.ok flagsStd) (Except.ok [1, 2, 3]) none (Except.ok [])
    (Except.ok 5) none (Except.error "stat")

/-- World whose single input file fails to decode. -/
def wTaskFails : World Nat :=
  mkWorld (Except.ok flagsStd) (Except.ok [0]) (some 7)
    (Except.ok [⟨"a.png", false⟩]) (Except.error "decode fail") none
    (Except.error "stat")

/-- World whose single task composites fine but whose save fails. -/
def wSaveFails : World Nat :=
  mkWorld (Except.ok flagsStd) (Except.ok [0]) (some 7)
    (Except.ok [⟨"a.png", false⟩]) (Except.ok 5) (some "disk full")
    (Except.error "stat")

/-- World where the destination already exists (stat succeeds). -/
def wSkip : World Nat :=
  mkWorld (Except.ok flagsStd) (Except.ok [0]) (some 7)
    (Except.ok [⟨"a.png", false⟩]) (Except.ok 5) none (Except.ok ())

/-- World with the force flag set and an existing destination. -/
def wForce : World Nat :=
  mkWorld (Except.ok flagsForce) (Except.ok [0]) (some 7)
    (Except.ok [⟨"a.png", false⟩]) (Except.ok 5) none (Except.ok ())

/-- World whose stat oracle fails even though everything else
succeeds, modelling a destination whose stat fails for a reason other
than non-existence. -/
def wStatErr : World Nat :=
  mkWorld (Except.ok flagsStd) (Except.ok [0]) (some 7)
    (Except.ok [⟨"a.png", false⟩]) (Except.ok 5) none
    (Except.error "permission denied")

/-- World whose input directory holds two files and a subdirectory. -/
def wEnum : World Nat :=
  mkWorld (Except.ok flagsStd) (Except.ok [0]) (some 7)
    (Except.ok [⟨"a.png", false⟩, ⟨"sub", true⟩, ⟨"c.txt", false⟩])
    (Except.error "decode fail") none (Except.error "stat")

/-- The stat oracle is the only field setStat changes. -/
theorem setStat_parse {Img : Type} (w : World Img) (s : String → Except String Unit) :
    (setStat w s).parse = w.parse := rfl

/-- Loading the mask does not consult the stat oracle. -/
theorem loadMaskImage_setStat {Img : Type} (w : World Img)
    (s : String → Except String Unit) (m : String) :
    loadMaskImage (setStat w s) m = loadMaskImage w m := rfl

/-- Enumerating the input directory does not consult the stat oracle. -/
theorem readImagePaths_setStat {Img : Type} (w : World Img)
    (s : String → Except String Unit) (t : String) :
    readImagePaths (setStat w s) t = readImagePaths w t := rfl

/-- Compositing does not consult the stat oracle. -/
theorem overlayImage_setStat {Img : Type} (w : World Img)
    (s : String → Except String Unit) (file : String) (mask : Option Img) :
    overlayImage (setStat w s) file mask = overlayImage w file mask := rfl

/-- Pointwise description of applying a list of writes: the value at q
is the last write to q when there is one, the original content
otherwise. -/
theorem applyWrites_apply {Img : Type} (l : List (String × Img)) (fs : FS Img)
    (q : String) :
    applyWrites l fs q =
      match l.reverse.find? (fun e => e.1 == q) with
      | some e => some e.2
      | none => fs q := by
  induction l generalizing fs with
  | nil => simp [applyWrites]
  | cons a t ih =>
      rw [show applyWrites (a :: t) fs = applyWrites t (writeFile fs a.1 a.2) from rfl]
      rw [ih]
      rw [List.reverse_cons, List.find?_append]
      cases hfind : t.reverse.find? (fun e => e.1 == q) with
      | some e => simp [hfind]
      | none =>
          by_cases hq : (a.1 == q) = true
          · have hq2 : q = a.1 := (eq_of_beq hq).symm
            simp [hfind, List.find?, hq, writeFile, hq2]
          · have hq2 : ¬ q = a.1 := fun h => hq (by simp [h])
            simp [hfind, List.find?, hq, writeFile, hq2]

/-- Applying the same list of writes twice is the same as applying it
once: each file ends up holding its last written value either way. -/
theorem applyWrites_idem {Img : Type} (l : List (String × Img)) (fs : FS Img) :
    applyWrites l (applyWrites l fs) = applyWrites l fs := by
  funext q
  rw [applyWrites_apply, applyWrites_apply]
  cases hfind : l.reverse.find? (fun e => e.1 == q) with
  | some e => simp
  | none => simp [applyWrites_apply, hfind]

/-- One orchestration step preserves the orchestration invariant. -/
theorem orchInv_step (tasks : List String) (s s' : OrchState)
    (hinv : orchInv tasks s) (hstep : OrchStep s s') : orchInv tasks s' := by
  obtain ⟨hc, hperm, _⟩ := hinv
  cases hstep with
  | dispatch t p r c n =>
      refine ⟨by simp_all, ?_, by simp⟩
      simp only at hperm ⊢
      exact List.Perm.trans (List.Perm.append_right c List.perm_middle) hperm
  | complete t p r₁ r₂ c n =>
      refine ⟨?_, ?_, by simp⟩
      · simp only at hc ⊢
        simp [List.length_append] at hc ⊢
        omega
      · simp only at hperm ⊢
        have hi : (p ++ (r₁ ++ t :: r₂)).Perm (t :: (p ++ (r₁ ++ r₂))) := by
          have h0 := @List.perm_middle _ t (p ++ r₁) r₂
          simpa [List.append_assoc] using h0
        have h2 := List.Perm.append_right c hi
        exact List.Perm.trans List.perm_middle (List.Perm.trans h2.symm hperm)
  | finish r c =>
      exact ⟨hc, hperm, fun _ => ⟨rfl, rfl⟩⟩

/-- The orchestration invariant holds in every reachable state. -/
theorem orchInv_reachable (tasks : List String) (s : OrchState)
    (h : Relation.ReflTransGen OrchStep ⟨tasks, [], [], 0, false⟩ s) :
    orchInv tasks s := by
  induction h with
  | refl => exact ⟨rfl, by simp, by simp⟩
  | tail _ hstep ih => exact orchInv_step tasks _ _ ih hstep

/-- C1 (amended): a flag parse failure, a missing -directory flag, a
missing -output flag, and an unloadable mask asset each abort Run with
zero tasks dispatched and exit code ExitCodeError — whose value is 2,
not 1, because in the Go const block iota is already 1 on its line;
an unreadable input directory instead panics inside readImagePaths,
so in that case Run never returns an exit code at all. -/
theorem run_fatal_conditions {Img : Type} (w : World Img) :
    ExitCodeError = 2
    ∧ (∀ e, w.parse = Except.error e → Run w = RunOutcome.exited ExitCodeError [])
    ∧ (∀ f, w.parse = Except.ok f → f.version = false → f.directory = "" →
        Run w = RunOutcome.exited ExitCodeError [])
    ∧ (∀ f, w.parse = Except.ok f → f.version = false → f.directory ≠ "" →
        f.output = "" → Run w = RunOutcome.exited ExitCodeError [])
    ∧ (∀ f e, w.parse = Except.ok f → f.version = false → f.directory ≠ "" →
        f.output ≠ "" → w.asset MaskImage = Except.error e →
        Run w = RunOutcome.exited ExitCodeError [])
    ∧ (∀ f bs e, w.parse = Except.ok f → f.version = false → f.directory ≠ "" →
        f.output ≠ "" → w.asset MaskImage = Except.ok bs →
        w.readDir (addDirectorySuffix f.directory) = Except.error e →
        Run w = RunOutcome.panicked e) := by
  refine ⟨rfl, ?_, ?_, ?_, ?_, ?_⟩
  · intro e h
    simp [Run, h]
  · intro f hp hv hd
    simp [Run, hp, hv, hd]
  · intro f hp hv hd ho
    simp [Run, hp, hv, hd, ho]
  · intro f e hp hv hd ho ha
    simp [Run, hp, hv, hd, ho, loadMaskImage, ha]
  · intro f bs e hp hv hd ho ha hr
    simp [Run, hp, hv, hd, ho, loadMaskImage, ha, readImagePaths, hr]

/-- C1 counterexample: at a world whose flag parsing fails, Run
returns ExitCodeError, and that code is 2, not the 1 the claim
states. -/
theorem run_parse_failure_returns_two :
    Run wParseFail = RunOutcome.exited ExitCodeError []
    ∧ ExitCodeError ≠ 1 := ⟨rfl, by decide⟩

/-- Closed instances of the fatal-condition theorem: missing input
directory, missing output directory, missing mask asset, unreadable
input directory. -/
theorem run_fatal_conditions_witness :
    Run wNoDir = RunOutcome.exited ExitCodeError []
    ∧ Run wNoOut = RunOutcome.exited ExitCodeError []
    ∧ Run wMaskFail = RunOutcome.exited ExitCodeError []
    ∧ Run wReadDirFail = RunOutcome.panicked "read error" :=
  ⟨(run_fatal_conditions wNoDir).2.2.1 flagsNoDir rfl rfl rfl,
   (run_fatal_conditions wNoOut).2.2.2.1 flagsNoOut rfl rfl (by decide) rfl,
   (run_fatal_conditions wMaskFail).2.2.2.2.1 flagsStd "asset not found" rfl rfl
     (by decide) (by decide) rfl,
   (run_fatal_conditions wReadDirFail).2.2.2.2.2 flagsStd [0] "read error" rfl rfl
     (by decide) (by decide) rfl rfl⟩

/-- C2: whenever initialization succeeds — flags parsed with version
unset, both directories given, mask asset loaded, input directory
enumerated — Run returns exit code ExitCodeOK = 0; no hypothesis
constrains the per-task oracles, so the code is 0 however many tasks
fail or are skipped. -/
theorem run_success_exit_code {Img : Type} (w : World Img) (f : Flags)
    (bs : List Nat) (entries : List DirEntry)
    (hp : w.parse = Except.ok f) (hv : f.version = false)
    (hd : f.directory ≠ "") (ho : f.output ≠ "")
    (ha : w.asset MaskImage = Except.ok bs)
    (hr : w.readDir (addDirectorySuffix f.directory) = Except.ok entries) :
    exitCode (Run w) = some ExitCodeOK ∧ ExitCodeOK = 0 := by
  refine ⟨?_, rfl⟩
  simp [Run, hp, hv, hd, ho, loadMaskImage, ha, readImagePaths, hr, exitCode]

/-- Closed instance: a run whose only task fails to decode still exits
with code 0. -/
theorem run_success_exit_code_witness :
    exitCode (Run wTaskFails) = some ExitCodeOK ∧ ExitCodeOK = 0 :=
  run_success_exit_code wTaskFails flagsStd [0] [⟨"a.png", false⟩] rfl rfl
    (by decide) (by decide) rfl rfl

/-- C3 counterexample: a world whose asset bytes exist but do not
decode (image.Decode yields a nil image): loadMaskImage nevertheless
returns success, because the source discards the decode error. -/
theorem loadMaskImage_ignores_decode_failure :
    wUndecodable.decode [1, 2, 3] = none
    ∧ wUndecodable.asset MaskImage = Except.ok [1, 2, 3]
    ∧ loadMaskImage wUndecodable MaskImage = Except.ok none := ⟨rfl, rfl, rfl⟩

/-- C3 (amended): loadMaskImage returns a non-nil error exactly when
the asset lookup fails; when the asset loads, the function succeeds
with whatever image.Decode produced, a nil image on decode failure
included.  When loadMaskImage does fail, Run exits with the error
code having dispatched zero tasks. -/
theorem loadMaskImage_error_iff_asset_error {Img : Type} (w : World Img) :
    ((∃ e, loadMaskImage w MaskImage = Except.error e)
        ↔ (∃ e, w.asset MaskImage = Except.error e))
    ∧ (∀ bs, w.asset MaskImage = Except.ok bs →
        loadMaskImage w MaskImage = Except.ok (w.decode bs))
    ∧ (∀ f e, w.parse = Except.ok f → f.version = false → f.directory ≠ "" →
        f.output ≠ "" → w.asset MaskImage = Except.error e →
        Run w = RunOutcome.exited ExitCodeError []
          ∧ tasksDispatched (Run w) = 0) := by
  refine ⟨?_, ?_, ?_⟩
  · cases h : w.asset MaskImage with
    | error e => simp [loadMaskImage, h]
    | ok bs => simp [loadMaskImage, h]
  · intro bs h
    simp [loadMaskImage, h]
  · intro f e hp hv hd ho ha
    constructor
    · simp [Run, hp, hv, hd, ho, loadMaskImage, ha]
    · simp [Run, hp, hv, hd, ho, loadMaskImage, ha, tasksDispatched]

/-- Closed instance: the missing-asset world exits with the error code
and dispatches zero tasks. -/
theorem loadMaskImage_error_iff_asset_error_witness :
    Run wMaskFail = RunOutcome.exited ExitCodeError []
    ∧ tasksDispatched (Run wMaskFail) = 0 :=
  (loadMaskImage_error_iff_asset_error wMaskFail).2.2 flagsStd "asset not found"
    rfl rfl (by decide) (by decide) rfl

/-- C4 (code bug): a task whose composite succeeds and whose save then
fails emits a line that formats mask_err — which is necessarily nil at
that point — instead of save_err, so the actual write error, here
disk full, never reaches the error stream; the line reads
[%!s(<nil>)] instead. -/
theorem save_failure_logs_nil_error :
    wSaveFails.save 15 "out/a.png" = some "disk full"
    ∧ overlayImage wSaveFails "in/a.png" (some 7) = Except.ok 15
    ∧ runTask wSaveFails "out/" false (some 7) "in/a.png" =
        ⟨[(StreamKind.stderr, "[%!s(<nil>)] in/a.png\n")], none⟩ :=
  ⟨rfl, rfl, rfl⟩

/-- C5: given a source that composites, the task skips — emitting the
already-exists line and writing nothing — exactly when the destination
exists and force is unset; otherwise it proceeds to the save call, and
a completed write overwrites whatever the destination held. -/
theorem runTask_skip_guard {Img : Type} (w : World Img) (output : String)
    (force : Bool) (mask : Option Img) (filePath : String) (img : Img)
    (hov : overlayImage w filePath mask = Except.ok img) :
    (existFile w (destPath output filePath) = true ∧ force = false →
        runTask w output force mask filePath =
          ⟨[(StreamKind.stderr,
              "[already exists] " ++ destPath output filePath ++ "\n")], none⟩)
    ∧ (¬(existFile w (destPath output filePath) = true ∧ force = false) →
        runTask w output force mask filePath =
          match w.save img (destPath output filePath) with
          | some _ =>
              ⟨[(StreamKind.stderr,
                  "[" ++ fmtNilErr ++ "] " ++ filePath ++ "\n")], none⟩
          | none =>
              ⟨[(StreamKind.stdout,
                  "[success] " ++ destPath output filePath ++ "\n")],
                some (destPath output filePath, img)⟩)
    ∧ (∀ fs : FS Img,
        writeFile fs (destPath output filePath) img (destPath output filePath)
          = some img) := by
  refine ⟨?_, ?_, ?_⟩
  · rintro ⟨he, hf⟩
    simp [runTask, hov, he, hf]
  · intro h
    have hb : (existFile w (destPath output filePath) && !force) = false := by
      cases hef : existFile w (destPath output filePath) <;> cases force <;>
        simp_all
    simp [runTask, hov, hb]
  · intro fs
    simp [writeFile]

/-- Closed instances of the overwrite guard: without force an existing
destination is skipped; with force the same destination is written. -/
theorem runTask_skip_guard_witness :
    runTask wSkip "out/" false (some 7) "in/a.png" =
      ⟨[(StreamKind.stderr,
          "[already exists] " ++ destPath "out/" "in/a.png" ++ "\n")], none⟩
    ∧ runTask wForce "out/" true (some 7) "in/a.png" =
      ⟨[(StreamKind.stdout,
          "[success] " ++ destPath "out/" "in/a.png" ++ "\n")],
        some (destPath "out/" "in/a.png", 15)⟩ := by
  constructor
  · exact (runTask_skip_guard wSkip "out/" false (some 7) "in/a.png" 15 rfl).1
      ⟨rfl, rfl⟩
  · exact (runTask_skip_guard wForce "out/" true (some 7) "in/a.png" 15 rfl).2.1
      (by simp)

/-- C6: enumeration returns exactly the non-directory entries of the
input directory — prefixed with the target, in directory order, with
no recursion and no filtering by extension — and a successful run
dispatches exactly one task per returned path. -/
theorem readImagePaths_exactly_nondir {Img : Type} (w : World Img)
    (target : String) (entries : List DirEntry)
    (h : w.readDir target = Except.ok entries) :
    readImagePaths w target =
      Except.ok ((entries.filter (fun e => !e.isDir)).map
        (fun e => target ++ e.name))
    ∧ (∀ f bs, w.parse = Except.ok f → f.version = false →
        f.directory ≠ "" → f.output ≠ "" →
        w.asset MaskImage = Except.ok bs →
        target = addDirectorySuffix f.directory →
        tasksDispatched (Run w) = (entries.filter (fun e => !e.isDir)).length) := by
  constructor
  · simp [readImagePaths, h]
  · intro f bs hp hv hd ho ha ht
    subst ht
    simp [Run, hp, hv, hd, ho, loadMaskImage, ha, readImagePaths, h,
      tasksDispatched]

/-- Closed instance: of three entries — two files and one
subdirectory — enumeration returns the two file paths and the run
dispatches two tasks. -/
theorem readImagePaths_exactly_nondir_witness :
    readImagePaths wEnum "in/" = Except.ok ["in/a.png", "in/c.txt"]
    ∧ tasksDispatched (Run wEnum) = 2 := by
  constructor
  · exact (readImagePaths_exactly_nondir wEnum "in/"
      [⟨"a.png", false⟩, ⟨"sub", true⟩, ⟨"c.txt", false⟩] rfl).1
  · exact (readImagePaths_exactly_nondir wEnum "in/"
      [⟨"a.png", false⟩, ⟨"sub", true⟩, ⟨"c.txt", false⟩] rfl).2 flagsStd [0]
      rfl rfl (by decide) (by decide) rfl rfl

/-- C7 counterexample: with configured output a//, the normalization
used to build destination paths keeps both slashes: the destination
becomes a//x.png, built from an output directory that does not end in
a single trailing slash. -/
theorem addDirectorySuffix_double_slash :
    addDirectorySuffix "a//" = "a//"
    ∧ destPath (addDirectorySuffix "a//") "in/x.png" = "a//x.png"
    ∧ ¬ endsInSingleSlash (addDirectorySuffix "a//") :=
  ⟨rfl, rfl, fun hss => absurd hss.2 (by decide)⟩

/-- C7 (amended): every write a task performs targets destPath, the
output directory as suffixed by addDirectorySuffix concatenated with
the Go base name of the source path; addDirectorySuffix guarantees at
least one trailing slash, appending one only when none is present and
leaving a path that already ends in slashes unchanged; destPath is a
pure function of the two strings, so the derivation is deterministic;
and Run hands every task the suffixed configured output directory. -/
theorem task_dest_from_output_and_base {Img : Type} (w : World Img) :
    (∀ output force mask filePath,
        (runTask w output force mask filePath).written = none
        ∨ ∃ img, (runTask w output force mask filePath).written
            = some (destPath output filePath, img))
    ∧ (∀ output filePath,
        destPath output filePath = output ++ filepathBase filePath)
    ∧ (∀ p, hasSuffix (addDirectorySuffix p) "/" = true)
    ∧ (∀ p, hasSuffix p "/" = true → addDirectorySuffix p = p)
    ∧ (∀ f bs entries, w.parse = Except.ok f → f.version = false →
        f.directory ≠ "" → f.output ≠ "" →
        w.asset MaskImage = Except.ok bs →
        w.readDir (addDirectorySuffix f.directory) = Except.ok entries →
        Run w = RunOutcome.exited ExitCodeOK
          (((entries.filter (fun e => !e.isDir)).map
              (fun e => addDirectorySuffix f.directory ++ e.name)).map
            (fun filePath =>
              runTask w (addDirectorySuffix f.output) f.force (w.decode bs)
                filePath))) := by
  refine ⟨?_, ?_, ?_, ?_, ?_⟩
  · intro output force mask filePath
    cases hov : overlayImage w filePath mask with
    | error e =>
        left
        simp [runTask, hov]
    | ok img =>
        by_cases hg : (existFile w (destPath output filePath) && !force) = true
        · left
          simp [runTask, hov, hg]
        · rw [Bool.not_eq_true] at hg
          cases hs : w.save img (destPath output filePath) with
          | some e =>
              left
              simp [runTask, hov, hg, hs]
          | none =>
              right
              exact ⟨img, by simp [runTask, hov, hg, hs]⟩
  · intro output filePath
    rfl
  · intro p
    by_cases h : hasSuffix p "/" = true
    · simp [addDirectorySuffix, h]
    · rw [Bool.not_eq_true] at h
      simp only [addDirectorySuffix, h, Bool.false_eq_true, if_false]
      simp [hasSuffix, String.data_append, List.suffix_append]
  · intro p h
    simp [addDirectorySuffix, h]
  · intro f bs entries hp hv hd ho ha hr
    simp [Run, hp, hv, hd, ho, loadMaskImage, ha, readImagePaths, hr]

/-- Closed instances: the suffixing of a bare directory name ends in a
slash, and a concrete run dispatches tasks whose output directory is
the suffixed configured output. -/
theorem task_dest_from_output_and_base_witness :
    hasSuffix (addDirectorySuffix "in") "/" = true
    ∧ Run wEnum = RunOutcome.exited ExitCodeOK
        ((["in/a.png", "in/c.txt"]).map
          (fun filePath => runTask wEnum "out/" false (some 7) filePath)) := by
  constructor
  · exact (task_dest_from_output_and_base wEnum).2.2.1 "in"
  · exact (task_dest_from_output_and_base wEnum).2.2.2.2 flagsStd [0]
      [⟨"a.png", false⟩, ⟨"sub", true⟩, ⟨"c.txt", false⟩] rfl rfl (by decide)
      (by decide) rfl rfl

/-- C8: in every interleaving of the orchestration steps, a state in
which Run has returned has an exhausted dispatch loop, no running
goroutines, a zero WaitGroup counter, and a completed list that is a
permutation of the dispatched tasks: Run does not return until every
dispatched task has signaled completion, however the completions were
ordered and however many of them were failures. -/
theorem run_returns_only_after_all_tasks (tasks : List String) (s : OrchState)
    (h : Relation.ReflTransGen OrchStep ⟨tasks, [], [], 0, false⟩ s)
    (hret : s.returned = true) :
    s.pending = [] ∧ s.running = [] ∧ s.counter = 0
      ∧ s.completed.Perm tasks := by
  obtain ⟨hc, hperm, himp⟩ := orchInv_reachable tasks s h
  obtain ⟨hp, hn⟩ := himp hret
  have hr : s.running = [] := List.length_eq_zero.mp (hc.symm.trans hn)
  refine ⟨hp, hr, hn, ?_⟩
  rw [hp, hr] at hperm
  simpa using hperm

/-- Closed instance: the three-step trace dispatch, complete, finish
over a single task reaches a returned state whose completed list is
exactly that task. -/
theorem run_returns_only_after_all_tasks_witness :
    (OrchState.mk [] [] ["a"] 0 true).pending = []
    ∧ (OrchState.mk [] [] ["a"] 0 true).running = []
    ∧ (OrchState.mk [] [] ["a"] 0 true).counter = 0
    ∧ (OrchState.mk [] [] ["a"] 0 true).completed.Perm ["a"] :=
  run_returns_only_after_all_tasks ["a"] ⟨[], [], ["a"], 0, true⟩
    (Relation.ReflTransGen.head (OrchStep.dispatch "a" [] [] [] 0)
      (Relation.ReflTransGen.head (OrchStep.complete "a" [] [] [] [] 0)
        (Relation.ReflTransGen.head (OrchStep.finish [] ["a"])
          Relation.ReflTransGen.refl))) rfl

/-- With the force flag set a task never consults the stat oracle:
the overwrite guard short-circuits, so two worlds differing only in
stat run the task identically. -/
theorem runTask_force_ignores_stat {Img : Type} (w : World Img)
    (stat₁ stat₂ : String → Except String Unit) (output : String)
    (mask : Option Img) (filePath : String) :
    runTask (setStat w stat₁) output true mask filePath
      = runTask (setStat w stat₂) output true mask filePath := by
  simp only [runTask, overlayImage_setStat]
  cases hov : overlayImage w filePath mask with
  | error e => rfl
  | ok img => simp [setStat]

/-- With the force flag set, the whole of Run is unaffected by the
stat oracle. -/
theorem run_force_stat_independent {Img : Type} (w : World Img)
    (stat₁ stat₂ : String → Except String Unit) (f : Flags)
    (hp : w.parse = Except.ok f) (hf : f.force = true) :
    Run (setStat w stat₁) = Run (setStat w stat₂) := by
  have hT : ∀ output mask filePath,
      runTask (setStat w stat₁) output f.force mask filePath
        = runTask (setStat w stat₂) output f.force mask filePath := by
    intro output mask filePath
    rw [hf]
    exact runTask_force_ignores_stat w stat₁ stat₂ output mask filePath
  simp only [Run, setStat_parse, loadMaskImage_setStat, readImagePaths_setStat, hp]
  cases hv : f.version with
  | true => rfl
  | false =>
      by_cases hd : f.directory = ""
      · simp [hd]
      · by_cases ho : f.output = ""
        · simp [hd, ho]
        · cases ha : w.asset MaskImage with
          | error e => simp [hd, ho, loadMaskImage, ha]
          | ok bs =>
              cases hr : w.readDir (addDirectorySuffix f.directory) with
              | error e =>
                  simp [hd, ho, loadMaskImage, ha, readImagePaths, hr]
              | ok paths =>
                  simp [hd, ho, loadMaskImage, ha, readImagePaths, hr, hT]

/-- C9: with the force flag set a run never reads the output
directory state (the stat oracle), so a second run over identical
inputs and mask performs exactly the same write list; and applying
that same write list a second time changes nothing — the output files
are byte-identical after the second run. -/
theorem run_twice_with_force_idempotent {Img : Type} (w : World Img)
    (stat₁ stat₂ : String → Except String Unit) (f : Flags) (fs : FS Img)
    (hp : w.parse = Except.ok f) (hf : f.force = true) :
    runWrites (Run (setStat w stat₁)) = runWrites (Run (setStat w stat₂))
    ∧ applyWrites (runWrites (Run (setStat w stat₁)))
        (applyWrites (runWrites (Run (setStat w stat₁))) fs)
      = applyWrites (runWrites (Run (setStat w stat₁))) fs := by
  constructor
  · rw [run_force_stat_independent w stat₁ stat₂ f hp hf]
  · exact applyWrites_idem _ _

/-- Closed instance: the force-flag world performs the same writes
whether the destination stats as existing or as erroring, and a
double application of its writes equals a single one. -/
theorem run_twice_with_force_idempotent_witness :
    runWrites (Run (setStat wForce (fun _ => Except.ok ())))
      = runWrites (Run (setStat wForce (fun _ => Except.error "stat")))
    ∧ applyWrites (runWrites (Run (setStat wForce (fun _ => Except.ok ()))))
        (applyWrites
          (runWrites (Run (setStat wForce (fun _ => Except.ok ()))))
          (fun _ => none))
      = applyWrites (runWrites (Run (setStat wForce (fun _ => Except.ok ()))))
        (fun _ => none) :=
  run_twice_with_force_idempotent wForce (fun _ => Except.ok ())
    (fun _ => Except.error "stat") flagsForce (fun _ => none) rfl rfl

/-- C10: existFile reports a destination as existing exactly when
os.Stat returns no error; a stat failure of any kind — a permission
error on an existing file included — therefore reads as absent, the
guard existFile && !force evaluates to false, and the task proceeds
to the save call even without the force flag. -/
theorem existFile_iff_stat_ok {Img : Type} (w : World Img) (p : String) :
    (existFile w p = true ↔ ∃ u, w.stat p = Except.ok u)
    ∧ (∀ e force, w.stat p = Except.error e →
        (existFile w p && !force) = false)
    ∧ (∀ e output force mask filePath img,
        p = destPath output filePath →
        w.stat p = Except.error e →
        overlayImage w filePath mask = Except.ok img →
        runTask w output force mask filePath =
          match w.save img (destPath output filePath) with
          | some _ =>
              ⟨[(StreamKind.stderr,
                  "[" ++ fmtNilErr ++ "] " ++ filePath ++ "\n")], none⟩
          | none =>
              ⟨[(StreamKind.stdout,
                  "[success] " ++ destPath output filePath ++ "\n")],
                some (destPath output filePath, img)⟩) := by
  refine ⟨?_, ?_, ?_⟩
  · cases h : w.stat p with
    | ok u => simp [existFile, h]
    | error e => simp [existFile, h]
  · intro e force h
    simp [existFile, h]
  · intro e output force mask filePath img hpd hst hov
    subst hpd
    have hb : (existFile w (destPath output filePath) && !force) = false := by
      simp [existFile, hst]
    simp [runTask, hov, hb]

/-- Closed instance: with a permission-style stat error on the
destination and no force flag, the task writes the file anyway. -/
theorem existFile_iff_stat_ok_witness :
    runTask wStatErr "out/" false (some 7) "in/a.png" =
      ⟨[(StreamKind.stdout,
          "[success] " ++ destPath "out/" "in/a.png" ++ "\n")],
        some (destPath "out/" "in/a.png", 15)⟩ :=
  (existFile_iff_stat_ok wStatErr (destPath "out/" "in/a.png")).2.2
    "permission denied" "out/" false (some 7) "in/a.png" 15 rfl rfl rfl

end Lgtmgen
